import Mathlib

/-!
Shallow embedding of the bearer-token introspection validator of the
mcp-calendar-app repository: `auth.py` (validate_token, Config, AccessToken,
get_protected_resource_metadata), `token_verifier.py` (get_http_client,
IntrospectionTokenVerifier.verify_token) and the startup gate of `server.py`.
-/

/-- JSON values as produced by decoding an introspection response.  The
introspection paths modelled here access only top-level fields that are
booleans, numbers, strings or arrays, so nested objects are not included. -/
inductive JsonValue where
  | null
  | bool (b : Bool)
  | num (n : Int)
  | str (s : String)
  | arr (xs : List JsonValue)

/-- A decoded JSON object: the top-level field/value pairs of the
introspection response (keys assumed distinct, as in a Python dict). -/
abbrev JsonObj := List (String × JsonValue)

/-- Python truthiness of a JSON value, as used by `if not data.get(...)`:
None, False, 0, the empty string and the empty list are falsy. -/
def truthy : JsonValue → Bool
  | .null => false
  | .bool b => b
  | .num n => n != 0
  | .str s => s != ""
  | .arr xs => !xs.isEmpty

/-- `dict.get(key)`: first binding of the key, if any. -/
def jsonGet : JsonObj → String → Option JsonValue
  | [], _ => none
  | (k, v) :: rest, key => if k == key then some v else jsonGet rest key

/-- `dict.get(key, default)`. -/
def jsonGetD (data : JsonObj) (key : String) (dflt : JsonValue) : JsonValue :=
  (jsonGet data key).getD dflt

/-- Python `s.rstrip("/")`: drop every trailing `/` character. -/
def rstripSlash (s : String) : String :=
  String.mk ((s.data.reverse.dropWhile (fun c => c == '/')).reverse)

/-- Python `s.startswith(p)` on a single candidate. -/
def pyStartsWith (s p : String) : Bool :=
  List.isPrefixOf p.data s.data

/-- The transport-policy check shared by `validate_token` (auth.py line 144)
and `verify_token` (token_verifier.py line 87): the endpoint must start with
`https://`, `http://localhost` or `http://127.0.0.1`. -/
def endpointAllowed (url : String) : Bool :=
  pyStartsWith url "https://" || pyStartsWith url "http://localhost" ||
    pyStartsWith url "http://127.0.0.1"

/-- Helper for Python `str.split()`: accumulate a current word (reversed)
while scanning characters, breaking on whitespace and dropping empty words. -/
def splitWsAux : List Char → List Char → List String
  | [], acc => if acc.isEmpty then [] else [String.mk acc.reverse]
  | c :: cs, acc =>
    if c.isWhitespace then
      if acc.isEmpty then splitWsAux cs []
      else String.mk acc.reverse :: splitWsAux cs []
    else splitWsAux cs (c :: acc)

/-- Python `s.split()` with no argument: split on runs of whitespace,
discarding empty tokens. -/
def pySplitWs (s : String) : List String :=
  splitWsAux s.data []

/-- Configuration as read from the environment in auth.py `Config`. -/
structure Config where
  HOST : String
  PORT : Nat
  AUTH_HOST : String
  AUTH_PORT : Nat
  AUTH_REALM : String
  OAUTH_CLIENT_ID : String
  OAUTH_CLIENT_SECRET : String
  MCP_SCOPE : String
deriving DecidableEq, Repr

/-- `Config.server_url`: the MCP server URL (the protected resource). -/
def Config.server_url (c : Config) : String :=
  "http://" ++ c.HOST ++ ":" ++ toString c.PORT

/-- `Config.auth_base_url`: the Keycloak base URL (trailing slash included). -/
def Config.auth_base_url (c : Config) : String :=
  "http://" ++ c.AUTH_HOST ++ ":" ++ toString c.AUTH_PORT ++ "/realms/" ++
    c.AUTH_REALM ++ "/"

/-- `Config.introspection_endpoint`: the RFC 7662 introspection endpoint. -/
def Config.introspection_endpoint (c : Config) : String :=
  c.auth_base_url ++ "protocol/openid-connect/token/introspect"

/-- auth.py `AccessToken`: the validated-token value returned by
`validate_token`.  `client_id`, `subject` and `expires_at` keep the JSON
values extracted by `data.get`, since Python does not coerce them. -/
structure AccessToken where
  token : String
  client_id : JsonValue
  scopes : List String
  subject : JsonValue
  expires_at : JsonValue

/-- `mcp.server.auth.provider.AccessToken` as constructed by
`IntrospectionTokenVerifier.verify_token` (token_verifier.py lines 146-152):
fields `token`, `client_id`, `scopes`, `expires_at`, `resource` - and no
subject field. -/
structure McpAccessToken where
  token : String
  client_id : JsonValue
  scopes : List String
  expires_at : JsonValue
  resource : String

/-- Which `return None` site of the policy section fired.  Each constructor
corresponds to one distinctly-logged rejection branch of the source;
`typeError` stands for a Python exception raised while iterating the `aud`
value or splitting a non-string `scope` (caught by the enclosing `except`). -/
inductive RejectReason where
  | inactive
  | missingAudience
  | audienceMismatch
  | missingScope
  | typeError (msg : String)
deriving DecidableEq, Repr

/-- `audiences = [aud] if isinstance(aud, str) else aud`: a string becomes a
one-element list; a list is iterated as-is; any other value is not iterable
and raises TypeError. -/
def pyIterAudiences : JsonValue → Except String (List JsonValue)
  | .str s => .ok [.str s]
  | .arr xs => .ok xs
  | _ => .error "TypeError: object is not iterable"

/-- `any(a.rstrip("/") == server_url for a in audiences)`: lazily scan the
elements; a matching string short-circuits to True before later elements are
touched; a non-string element reached by the scan raises AttributeError. -/
def pyAnyAudMatch (server_url : String) : List JsonValue → Except String Bool
  | [] => .ok false
  | .str a :: rest =>
    if rstripSlash a == server_url then .ok true
    else pyAnyAudMatch server_url rest
  | _ :: _ => .error "AttributeError: rstrip"

/-- The audience comparison applied to the raw `aud` value. -/
def audStage (server_url : String) (aud : JsonValue) : Except String Bool :=
  match pyIterAudiences aud with
  | .error e => .error e
  | .ok audiences => pyAnyAudMatch server_url audiences

/-- `scopes = scopes_str.split() if scopes_str else []`: a falsy value gives
the empty list, a truthy string is whitespace-split, and a truthy non-string
raises AttributeError at `.split()`. -/
def scopesStage : JsonValue → Except String (List String)
  | v =>
    if truthy v = false then .ok []
    else
      match v with
      | .str s => .ok (pySplitWs s)
      | _ => .error "AttributeError: split"

/-- The post-200 acceptance policy shared verbatim by auth.py lines 168-193
and token_verifier.py lines 114-137: liveness, audience and scope checks, in
order, short-circuiting on the first failure.  `server_url` is the
already-rstripped comparison URL (both sources rstrip before comparing).
On success it returns the parsed scope list. -/
def policyChecks (server_url required_scope : String) (data : JsonObj) :
    Except RejectReason (List String) :=
  if truthy (jsonGetD data "active" (.bool false)) = false then
    .error .inactive
  else
    let aud := jsonGetD data "aud" .null
    if truthy aud = false then .error .missingAudience
    else
      match audStage server_url aud with
      | .error e => .error (.typeError e)
      | .ok false => .error .audienceMismatch
      | .ok true =>
        match scopesStage (jsonGetD data "scope" (.str "")) with
        | .error e => .error (.typeError e)
        | .ok scopes =>
          if required_scope ∈ scopes then .ok scopes
          else .error .missingScope

/-- Outcome of the introspection POST, the validator's interaction with the
network: a transport fault, or a response with a status code and a decoded
body (`none` standing for a body on which `response.json()` raises). -/
inductive HttpOutcome where
  | timeout
  | connectionRefused
  | response (status : Nat) (body : Option JsonObj)

/-- The body of the `try` block of auth.py `validate_token` (lines 150-202):
`.error` marks an exception the block raises, to be caught by the
enclosing `except Exception`. -/
def validate_token_try (cfg : Config) (token : String) (outcome : HttpOutcome) :
    Except String (Option AccessToken) :=
  match outcome with
  | .timeout => .error "httpx.ReadTimeout"
  | .connectionRefused => .error "httpx.ConnectError"
  | .response status body =>
    if status != 200 then .ok none
    else
      match body with
      | none => .error "json.JSONDecodeError"
      | some data =>
        match policyChecks (rstripSlash cfg.server_url) cfg.MCP_SCOPE data with
        | .error (.typeError e) => .error e
        | .error _ => .ok none
        | .ok scopes =>
          .ok (some
            { token := token
              client_id := jsonGetD data "client_id" (.str "unknown")
              scopes := scopes
              subject := jsonGetD data "sub" (.str "unknown")
              expires_at := jsonGetD data "exp" .null })

/-- auth.py `validate_token`: the transport-policy guard, then the `try`
block with every exception caught and turned into `None`. -/
def validate_token (cfg : Config) (token : String) (outcome : HttpOutcome) :
    Option AccessToken :=
  if endpointAllowed cfg.introspection_endpoint = false then none
  else
    match validate_token_try cfg token outcome with
    | .error _ => none
    | .ok r => r

/-- token_verifier.py `IntrospectionTokenVerifier`: configuration captured at
construction. -/
structure IntrospectionTokenVerifier where
  introspection_endpoint : String
  server_url : String
  client_id : String
  client_secret : String
  required_scope : String

/-- The `__init__` of `IntrospectionTokenVerifier`: stores the endpoint
verbatim and the server URL with trailing slashes stripped. -/
def IntrospectionTokenVerifier.make (introspection_endpoint server_url
    client_id client_secret required_scope : String) :
    IntrospectionTokenVerifier :=
  { introspection_endpoint := introspection_endpoint
    server_url := rstripSlash server_url
    client_id := client_id
    client_secret := client_secret
    required_scope := required_scope }

/-- The body of the `try` block of `verify_token` (token_verifier.py lines
93-152).  The comparison URL is `self.server_url`, rstripped at `__init__`;
the returned SDK token carries `resource` and no subject. -/
def verify_token_try (v : IntrospectionTokenVerifier) (token : String)
    (outcome : HttpOutcome) : Except String (Option McpAccessToken) :=
  match outcome with
  | .timeout => .error "httpx.ReadTimeout"
  | .connectionRefused => .error "httpx.ConnectError"
  | .response status body =>
    if status != 200 then .ok none
    else
      match body with
      | none => .error "json.JSONDecodeError"
      | some data =>
        match policyChecks v.server_url v.required_scope data with
        | .error (.typeError e) => .error e
        | .error _ => .ok none
        | .ok scopes =>
          .ok (some
            { token := token
              client_id := jsonGetD data "client_id" (.str "unknown")
              scopes := scopes
              expires_at := jsonGetD data "exp" .null
              resource := v.server_url })

/-- `IntrospectionTokenVerifier.verify_token`: the transport-policy guard,
then the `try` block with every exception caught and turned into `None`. -/
def IntrospectionTokenVerifier.verify_token (v : IntrospectionTokenVerifier)
    (token : String) (outcome : HttpOutcome) : Option McpAccessToken :=
  if endpointAllowed v.introspection_endpoint = false then none
  else
    match verify_token_try v token outcome with
    | .error _ => none
    | .ok r => r

/-- The RFC 9728 document returned by auth.py
`get_protected_resource_metadata` (lines 211-226). -/
structure ProtectedResourceMetadata where
  resource : String
  authorization_servers : List String
  scopes_supported : List String
  bearer_methods_supported : List String
deriving DecidableEq, Repr

/-- auth.py `get_protected_resource_metadata`: a pure function of the
configuration. -/
def get_protected_resource_metadata (cfg : Config) : ProtectedResourceMetadata :=
  { resource := cfg.server_url
    authorization_servers := [rstripSlash cfg.auth_base_url]
    scopes_supported := [cfg.MCP_SCOPE]
    bearer_methods_supported := ["header"] }

/-- An `httpx.AsyncClient` instance, identified by an allocation id, with its
closed flag. -/
structure HttpClient where
  id : Nat
  closed : Bool
deriving DecidableEq, Repr

/-- Process state relevant to client pooling: the module-level
`_http_client` global of token_verifier.py, plus a fresh-id counter
standing for object allocation. -/
structure PoolState where
  http_client : Option HttpClient
  next_id : Nat
deriving DecidableEq, Repr

/-- token_verifier.py `get_http_client` (lines 18-35): if `_http_client` is
None or closed, allocate a fresh client and store it; otherwise return the
stored one. -/
def get_http_client (s : PoolState) : HttpClient × PoolState :=
  match s.http_client with
  | none =>
    let c : HttpClient := { id := s.next_id, closed := false }
    (c, { http_client := some c, next_id := s.next_id + 1 })
  | some c =>
    if c.closed then
      let c2 : HttpClient := { id := s.next_id, closed := false }
      (c2, { http_client := some c2, next_id := s.next_id + 1 })
    else (c, s)

/-- The client instance through which one `verify_token` call issues its
introspection POST: `client = await get_http_client()`
(token_verifier.py line 95). -/
def verify_token_client (s : PoolState) : HttpClient × PoolState :=
  get_http_client s

/-- The client instance through which one `validate_token` call issues its
introspection POST: `async with httpx.AsyncClient(timeout=10.0) as client`
(auth.py line 151) allocates a fresh client each call and leaves the shared
pool untouched. -/
def validate_token_client (s : PoolState) : HttpClient × PoolState :=
  ({ id := s.next_id, closed := false },
    { http_client := s.http_client, next_id := s.next_id + 1 })

/-- ASCII lowering of one character, as Python `str.lower()` does for the
ASCII transport names compared here. -/
def pyLowerChar (c : Char) : Char :=
  if 'A' ≤ c ∧ c ≤ 'Z' then Char.ofNat (c.toNat + 32) else c

/-- Python `s.lower()` restricted to ASCII input. -/
def pyLower (s : String) : String :=
  String.mk (s.data.map pyLowerChar)

/-- Result of the `__main__` startup sequence of server.py (lines 505-538). -/
inductive StartupResult where
  | runSse
  | runStdio
  | errorOauthUnavailable
  | errorNoAuthConfig
  | errorMissingSecret
deriving DecidableEq, Repr

/-- server.py `__main__`: in SSE mode, raise if OAuth modules are missing,
if the auth configuration is missing, or if `OAUTH_CLIENT_SECRET` is falsy
(the empty string); only then call `mcp.run(transport="sse")`.  Any other
transport goes straight to stdio serving. -/
def server_main (transport : String) (oauth_available auth_config_available : Bool)
    (client_secret : String) : StartupResult :=
  if pyLower transport == "sse" then
    if oauth_available = false then .errorOauthUnavailable
    else if auth_config_available = false then .errorNoAuthConfig
    else if client_secret == "" then .errorMissingSecret
    else .runSse
  else .runStdio

/-- Concrete configuration used by the scenario theorems: service at
`http://svc:3000`, Keycloak on localhost (so the development transport
exception applies), required scope `mcp:tools`. -/
def cfgScenario : Config :=
  { HOST := "svc"
    PORT := 3000
    AUTH_HOST := "localhost"
    AUTH_PORT := 8080
    AUTH_REALM := "master"
    OAUTH_CLIENT_ID := "mcp-server"
    OAUTH_CLIENT_SECRET := "secret"
    MCP_SCOPE := "mcp:tools" }

/-- Concrete verifier used by the scenario theorems. -/
def verScenario : IntrospectionTokenVerifier :=
  IntrospectionTokenVerifier.make "http://localhost:8080/introspect"
    "http://svc:3000" "mcp-server" "secret" "mcp:tools"

/-- The introspection response of the spec's success scenario. -/
def dataScenario : JsonObj :=
  [("active", .bool true), ("aud", .str "http://svc:3000"),
   ("scope", .str "mcp:tools read"), ("client_id", .str "c1"),
   ("sub", .str "u1"), ("exp", .num 9999999999)]

/-- The success-scenario token that `validate_token` returns. -/
def tokScenario : AccessToken :=
  { token := "tok"
    client_id := .str "c1"
    scopes := ["mcp:tools", "read"]
    subject := .str "u1"
    expires_at := .num 9999999999 }

/-- Scenario response with a different subject, all other fields equal. -/
def dataSub2 : JsonObj :=
  [("active", .bool true), ("aud", .str "http://svc:3000"),
   ("scope", .str "mcp:tools read"), ("client_id", .str "c1"),
   ("sub", .str "u2"), ("exp", .num 9999999999)]

/-- Scenario response whose `active` field is the number 1: truthy in
Python, but not the JSON value `true`. -/
def dataActiveNum : JsonObj :=
  [("active", .num 1), ("aud", .str "http://svc:3000"),
   ("scope", .str "mcp:tools read"), ("client_id", .str "c1"),
   ("sub", .str "u1"), ("exp", .num 9999999999)]

/-- Accepted response carrying neither `client_id` nor `sub` nor `exp`. -/
def dataNoIds : JsonObj :=
  [("active", .bool true), ("aud", .str "http://svc:3000"),
   ("scope", .str "mcp:tools")]

/-- Configuration whose Keycloak host is neither localhost nor HTTPS, so the
transport policy rejects its introspection endpoint. -/
def cfgRemoteAuth : Config :=
  { cfgScenario with AUTH_HOST := "auth" }

/-- A policy-level rejection makes `validate_token` return `none`,
whether the branch returned `None` directly or raised and was caught. -/
theorem validate_token_policy_error (cfg : Config) (token : String)
    (data : JsonObj) (r : RejectReason)
    (h : policyChecks (rstripSlash cfg.server_url) cfg.MCP_SCOPE data = .error r) :
    validate_token cfg token (.response 200 (some data)) = none := by
  cases r <;> simp_all [validate_token, validate_token_try]

/-- A policy-level rejection makes `verify_token` return `none`. -/
theorem verify_token_policy_error (v : IntrospectionTokenVerifier)
    (token : String) (data : JsonObj) (r : RejectReason)
    (h : policyChecks v.server_url v.required_scope data = .error r) :
    v.verify_token token (.response 200 (some data)) = none := by
  cases r <;> simp_all [IntrospectionTokenVerifier.verify_token, verify_token_try]

/-- C8: The protected-resource metadata is a pure function of the
configuration: with service URL http://svc:3000, auth base
http://auth:8080/realms/master/ and scope mcp:tools, the document is exactly
the RFC 9728 shape with the auth base trailing-slash-trimmed. -/
theorem protected_resource_metadata_scenario :
    get_protected_resource_metadata cfgRemoteAuth =
      { resource := "http://svc:3000"
        authorization_servers := ["http://auth:8080/realms/master"]
        scopes_supported := ["mcp:tools"]
        bearer_methods_supported := ["header"] } ∧
    cfgRemoteAuth.server_url = "http://svc:3000" ∧
    cfgRemoteAuth.auth_base_url = "http://auth:8080/realms/master/" ∧
    cfgRemoteAuth.MCP_SCOPE = "mcp:tools" := by
  refine ⟨?_, rfl, rfl, rfl⟩
  decide

/-- C9: starting in SSE mode with an empty OAuth client secret always fails
with a raised error before serving: it is never downgraded to serving
either transport, and with the auth modules present the failure is
precisely the missing-secret ValueError. -/
theorem sse_requires_client_secret :
    (∀ oauth_available auth_config_available : Bool,
      server_main "sse" oauth_available auth_config_available "" ≠ .runSse ∧
      server_main "sse" oauth_available auth_config_available "" ≠ .runStdio) ∧
    server_main "sse" true true "" = .errorMissingSecret := by
  decide

/-- C2: an introspection endpoint that starts with none of `https://`,
`http://localhost`, `http://127.0.0.1` is rejected uniformly for every
network outcome (hence before any network call), by both entry points;
`http://example.com/introspect` fails the check while
`http://localhost:8080/introspect` and `https://auth.example.com/introspect`
pass it. -/
theorem transport_policy_check :
    (∀ (cfg : Config) (token : String) (outcome : HttpOutcome),
      endpointAllowed cfg.introspection_endpoint = false →
      validate_token cfg token outcome = none) ∧
    (∀ (v : IntrospectionTokenVerifier) (token : String) (outcome : HttpOutcome),
      endpointAllowed v.introspection_endpoint = false →
      v.verify_token token outcome = none) ∧
    endpointAllowed "http://example.com/introspect" = false ∧
    endpointAllowed "http://localhost:8080/introspect" = true ∧
    endpointAllowed "https://auth.example.com/introspect" = true := by
  refine ⟨?_, ?_, by decide, by decide, by decide⟩
  · intro cfg token outcome h
    simp [validate_token, h]
  · intro v token outcome h
    simp [IntrospectionTokenVerifier.verify_token, h]

/-- Witness for C2 at concrete inputs: a remote-auth configuration and a
verifier with the non-loopback HTTP endpoint are both rejected. -/
theorem transport_policy_check_witness :
    validate_token cfgRemoteAuth "tok" (.response 200 (some dataScenario)) = none ∧
    (IntrospectionTokenVerifier.make "http://example.com/introspect"
      "http://svc:3000" "mcp-server" "secret" "mcp:tools").verify_token "tok"
      (.response 200 (some dataScenario)) = none :=
  ⟨transport_policy_check.1 cfgRemoteAuth "tok" _ (by decide),
   transport_policy_check.2.1 _ "tok" _ (by decide)⟩

/-- C7 counterexample: two `validate_token` validations in the same process
with no intervening close do NOT use the same client instance - auth.py
opens a fresh `httpx.AsyncClient` inside each call, so from the initial
process state the two POSTs go through distinct clients. -/
theorem pooled_client_counterexample :
    (validate_token_client { http_client := none, next_id := 0 }).1 ≠
      (validate_token_client
        (validate_token_client { http_client := none, next_id := 0 }).2).1 := by
  decide

/-- C7 amended: `verify_token`'s client acquisition (`get_http_client`) is a
lazily-created singleton recreated only when closed - two consecutive
acquisitions with no intervening close return the same instance, and an
open stored client is returned unchanged - while `validate_token` allocates
a fresh client on every call. -/
theorem pooled_client_reuse (s : PoolState) :
    (verify_token_client (verify_token_client s).2).1 = (verify_token_client s).1 ∧
    (∀ c : HttpClient, s.http_client = some c → c.closed = false →
      get_http_client s = (c, s)) ∧
    (validate_token_client s).1 ≠
      (validate_token_client (validate_token_client s).2).1 := by
  refine ⟨?_, ?_, ?_⟩
  · rcases s with ⟨hc, n⟩
    cases hc with
    | none => simp [verify_token_client, get_http_client]
    | some c =>
      by_cases hcl : c.closed <;>
        simp [verify_token_client, get_http_client, hcl]
  · intro c hc hcl
    simp [get_http_client, hc, hcl]
  · simp [validate_token_client]

/-- Witness for C7's amended theorem at a concrete state: an open stored
client with id 7 is returned unchanged. -/
theorem pooled_client_reuse_witness :
    get_http_client { http_client := some { id := 7, closed := false }, next_id := 8 } =
      ({ id := 7, closed := false },
       { http_client := some { id := 7, closed := false }, next_id := 8 }) :=
  (pooled_client_reuse
    { http_client := some { id := 7, closed := false }, next_id := 8 }).2.1
    { id := 7, closed := false } rfl rfl

/-- C6 counterexample: `verify_token`'s returned token is not populated with
the subject - two accepted scenario responses that differ only in `sub`
("u1" vs "u2") yield identical results, so no component of the result
carries the subject. -/
theorem construction_subject_counterexample :
    verScenario.verify_token "tok" (.response 200 (some dataScenario)) =
      verScenario.verify_token "tok" (.response 200 (some dataSub2)) ∧
    (verScenario.verify_token "tok" (.response 200 (some dataScenario))).isSome = true ∧
    jsonGet dataScenario "sub" = some (.str "u1") ∧
    jsonGet dataSub2 "sub" = some (.str "u2") :=
  ⟨rfl, rfl, rfl, rfl⟩

/-- C6 amended: on the spec's success scenario `validate_token` returns the
AccessToken with client_id "c1", scopes [mcp:tools, read], subject "u1" and
exp 9999999999, defaulting client_id and subject to "unknown" when absent;
`verify_token` returns the SDK AccessToken with client_id "c1", the same
scopes, the expiration, and resource = the server URL, with no subject
field. -/
theorem construction_scenario :
    validate_token cfgScenario "tok" (.response 200 (some dataScenario)) =
      some tokScenario ∧
    tokScenario.client_id = .str "c1" ∧
    tokScenario.scopes = ["mcp:tools", "read"] ∧
    "mcp:tools" ∈ tokScenario.scopes ∧
    "read" ∈ tokScenario.scopes ∧
    tokScenario.subject = .str "u1" ∧
    tokScenario.expires_at = .num 9999999999 ∧
    verScenario.verify_token "tok" (.response 200 (some dataScenario)) =
      some { token := "tok", client_id := .str "c1", scopes := ["mcp:tools", "read"],
             expires_at := .num 9999999999, resource := "http://svc:3000" } ∧
    validate_token cfgScenario "tok" (.response 200 (some dataNoIds)) =
      some { token := "tok", client_id := .str "unknown", scopes := ["mcp:tools"],
             subject := .str "unknown", expires_at := .null } := by
  refine ⟨rfl, rfl, rfl, ?_, ?_, rfl, rfl, rfl, rfl⟩ <;> decide

/-- C3 counterexample: a response whose `active` field is the number 1 - a
value different from the JSON `true` - is nevertheless accepted by both
entry points, because the source tests Python truthiness
(`not data.get("active", False)`), not equality with `true`. -/
theorem active_truthiness_counterexample :
    jsonGet dataActiveNum "active" = some (.num 1) ∧
    JsonValue.num 1 ≠ JsonValue.bool true ∧
    (validate_token cfgScenario "tok" (.response 200 (some dataActiveNum))).isSome = true ∧
    (verScenario.verify_token "tok" (.response 200 (some dataActiveNum))).isSome = true :=
  ⟨rfl, fun h => JsonValue.noConfusion h, rfl, rfl⟩

/-- C3 amended: whenever `active` is absent or Python-falsy (null, false, 0,
the empty string or the empty list), both entry points reject, regardless of
every other field; a truthy non-`true` value passes the liveness check. -/
theorem active_falsy_rejects (cfg : Config) (v : IntrospectionTokenVerifier)
    (token : String) (data : JsonObj)
    (h : truthy (jsonGetD data "active" (.bool false)) = false) :
    policyChecks (rstripSlash cfg.server_url) cfg.MCP_SCOPE data = .error .inactive ∧
    policyChecks v.server_url v.required_scope data = .error .inactive ∧
    validate_token cfg token (.response 200 (some data)) = none ∧
    v.verify_token token (.response 200 (some data)) = none := by
  have h1 : ∀ su rs : String, policyChecks su rs data = .error .inactive := by
    intro su rs
    simp [policyChecks, h]
  exact ⟨h1 _ _, h1 _ _,
    validate_token_policy_error cfg token data .inactive (h1 _ _),
    verify_token_policy_error v token data .inactive (h1 _ _)⟩

/-- Response with `active: false`, used by the C3 witness. -/
def dataInactive : JsonObj :=
  [("active", .bool false), ("aud", .str "http://svc:3000"),
   ("scope", .str "mcp:tools")]

/-- Witness for C3's amended theorem: a response with `active: false`. -/
theorem active_falsy_rejects_witness :
    validate_token cfgScenario "tok" (.response 200 (some dataInactive)) = none ∧
    verScenario.verify_token "tok" (.response 200 (some dataInactive)) = none :=
  ⟨(active_falsy_rejects cfgScenario verScenario "tok" dataInactive rfl).2.2.1,
   (active_falsy_rejects cfgScenario verScenario "tok" dataInactive rfl).2.2.2⟩

/-- Response with active true and an empty-string audience, used by the C10
witness. -/
def dataEmptyAud : JsonObj :=
  [("active", .bool true), ("aud", .str ""), ("scope", .str "mcp:tools")]

/-- C10: a present-but-falsy `aud` (the empty string or the empty list) is
rejected through the same missing-audience branch as an entirely absent
`aud` - `policyChecks` yields `.error .missingAudience`, a distinct value
from the comparison-loop outcomes - and both entry points return `none`. -/
theorem falsy_audience_rejected (cfg : Config) (v : IntrospectionTokenVerifier)
    (token : String) (data : JsonObj)
    (h_active : truthy (jsonGetD data "active" (.bool false)) = true)
    (h_aud : jsonGet data "aud" = some (.str "") ∨
      jsonGet data "aud" = some (.arr []) ∨ jsonGet data "aud" = none) :
    policyChecks (rstripSlash cfg.server_url) cfg.MCP_SCOPE data =
      .error .missingAudience ∧
    policyChecks v.server_url v.required_scope data = .error .missingAudience ∧
    validate_token cfg token (.response 200 (some data)) = none ∧
    v.verify_token token (.response 200 (some data)) = none := by
  have hf : truthy (jsonGetD data "aud" .null) = false := by
    rcases h_aud with h | h | h <;> simp [jsonGetD, h, truthy]
  have h1 : ∀ su rs : String, policyChecks su rs data = .error .missingAudience := by
    intro su rs
    simp [policyChecks, h_active, hf]
  exact ⟨h1 _ _, h1 _ _,
    validate_token_policy_error cfg token data .missingAudience (h1 _ _),
    verify_token_policy_error v token data .missingAudience (h1 _ _)⟩

/-- Witness for C10: active true, `aud` present as the empty string. -/
theorem falsy_audience_rejected_witness :
    policyChecks (rstripSlash cfgScenario.server_url) cfgScenario.MCP_SCOPE
      dataEmptyAud = .error .missingAudience ∧
    validate_token cfgScenario "tok" (.response 200 (some dataEmptyAud)) = none :=
  ⟨(falsy_audience_rejected cfgScenario verScenario "tok" dataEmptyAud rfl
      (Or.inl rfl)).1,
   (falsy_audience_rejected cfgScenario verScenario "tok" dataEmptyAud rfl
      (Or.inl rfl)).2.2.1⟩

/-- A scope value that is a string always yields exactly its
whitespace-split token list (the empty string splits to the empty list). -/
theorem scopesStage_str (s : String) : scopesStage (.str s) = .ok (pySplitWs s) := by
  by_cases h : s = ""
  · subst h; rfl
  · simp [scopesStage, truthy, h]

/-- `any` over a list of JSON strings is the boolean `any` of the
rstrip-comparisons. -/
theorem pyAnyAudMatch_map (su : String) (ss : List String) :
    pyAnyAudMatch su (ss.map .str) =
      .ok (ss.any fun s => rstripSlash s == su) := by
  induction ss with
  | nil => rfl
  | cons a rest ih =>
    cases h : (rstripSlash a == su) <;> simp [pyAnyAudMatch, h, ih]

/-- The rstripped canonical server URL is never empty: `server_url` starts
with `http://`, and rstrip only removes trailing slashes. -/
theorem rstripSlash_server_url_ne (cfg : Config) :
    rstripSlash cfg.server_url ≠ "" := by
  intro h
  have hmem : 'h' ∈ cfg.server_url.data := by
    show 'h' ∈ ("http://" ++ cfg.HOST ++ ":" ++ toString cfg.PORT).data
    simp only [String.data_append]
    exact List.mem_append_left _ (List.mem_append_left _
      (List.mem_append_left _ (by decide)))
  have hdata : ((cfg.server_url.data.reverse.dropWhile (fun c => c == '/')).reverse
      : List Char) = [] := congrArg String.data h
  rw [List.reverse_eq_nil_iff, List.dropWhile_eq_nil_iff] at hdata
  have := hdata 'h' (List.mem_reverse.mpr hmem)
  simp at this

/-- With the liveness check passed, a truthy `aud` and an audience-stage
verdict `b`, the policy avoids both audience rejections exactly when `b` is
true. -/
theorem policyChecks_aud_verdict (su rs : String) (data : JsonObj) (b : Bool)
    (h_active : truthy (jsonGetD data "active" (.bool false)) = true)
    (htr : truthy (jsonGetD data "aud" .null) = true)
    (hst : audStage su (jsonGetD data "aud" .null) = .ok b) :
    ((policyChecks su rs data ≠ .error .missingAudience ∧
      policyChecks su rs data ≠ .error .audienceMismatch) ↔ b = true) := by
  cases b with
  | false =>
    have hpol : policyChecks su rs data = .error .audienceMismatch := by
      simp [policyChecks, h_active, htr, hst]
    simp [hpol]
  | true =>
    constructor
    · intro _; rfl
    · intro _
      rcases hsc : scopesStage (jsonGetD data "scope" (.str "")) with e | scopes
      · have hpol : policyChecks su rs data = .error (.typeError e) := by
          simp [policyChecks, h_active, htr, hst, hsc]
        simp [hpol]
      · by_cases hmem : rs ∈ scopes
        · have hpol : policyChecks su rs data = .ok scopes := by
            simp [policyChecks, h_active, htr, hst, hsc, hmem]
          simp [hpol]
        · have hpol : policyChecks su rs data = .error .missingScope := by
            simp [policyChecks, h_active, htr, hst, hsc, hmem]
          simp [hpol]

/-- C4: with active truthy, the audience check passes iff the `aud` claim -
a single string taken as a one-element list, or a list of strings as-is -
contains an entry equal to the service URL after trimming trailing slashes
on both sides; an absent `aud` rejects with the missing-audience branch, and
any policy rejection makes both entry points return `none`. -/
theorem audience_check (cfg : Config) (token : String) (data : JsonObj)
    (h_active : truthy (jsonGetD data "active" (.bool false)) = true) :
    (∀ s : String, jsonGet data "aud" = some (.str s) →
      ((policyChecks (rstripSlash cfg.server_url) cfg.MCP_SCOPE data ≠
          .error .missingAudience ∧
        policyChecks (rstripSlash cfg.server_url) cfg.MCP_SCOPE data ≠
          .error .audienceMismatch) ↔
        rstripSlash s = rstripSlash cfg.server_url)) ∧
    (∀ ss : List String, jsonGet data "aud" = some (.arr (ss.map .str)) →
      ((policyChecks (rstripSlash cfg.server_url) cfg.MCP_SCOPE data ≠
          .error .missingAudience ∧
        policyChecks (rstripSlash cfg.server_url) cfg.MCP_SCOPE data ≠
          .error .audienceMismatch) ↔
        ∃ s ∈ ss, rstripSlash s = rstripSlash cfg.server_url)) ∧
    (jsonGet data "aud" = none →
      policyChecks (rstripSlash cfg.server_url) cfg.MCP_SCOPE data =
        .error .missingAudience) ∧
    (∀ r, policyChecks (rstripSlash cfg.server_url) cfg.MCP_SCOPE data = .error r →
      validate_token cfg token (.response 200 (some data)) = none) ∧
    (∀ (v : IntrospectionTokenVerifier) (r : RejectReason),
      policyChecks v.server_url v.required_scope data = .error r →
      v.verify_token token (.response 200 (some data)) = none) := by
  have hsu : rstripSlash cfg.server_url ≠ "" := rstripSlash_server_url_ne cfg
  refine ⟨?_, ?_, ?_, ?_, ?_⟩
  · intro s hs
    have haudv : jsonGetD data "aud" .null = .str s := by simp [jsonGetD, hs]
    by_cases hse : s = ""
    · subst hse
      have htr : truthy (jsonGetD data "aud" .null) = false := by
        simp [haudv, truthy]
      have hpol : policyChecks (rstripSlash cfg.server_url) cfg.MCP_SCOPE data =
          .error .missingAudience := by
        simp [policyChecks, h_active, htr]
      constructor
      · intro hc; exact absurd hpol hc.1
      · intro hreq
        have : rstripSlash cfg.server_url = "" := hreq.symm.trans (by rfl)
        exact absurd this hsu
    · have htr : truthy (jsonGetD data "aud" .null) = true := by
        simp [haudv, truthy, hse]
      have hst : audStage (rstripSlash cfg.server_url) (jsonGetD data "aud" .null) =
          .ok (rstripSlash s == rstripSlash cfg.server_url) := by
        rw [haudv]
        cases h : (rstripSlash s == rstripSlash cfg.server_url) <;>
          simp [audStage, pyIterAudiences, pyAnyAudMatch, h]
      rw [policyChecks_aud_verdict _ _ _ _ h_active htr hst]
      simp
  · intro ss hs
    have haudv : jsonGetD data "aud" .null = .arr (ss.map .str) := by
      simp [jsonGetD, hs]
    by_cases hnil : ss = []
    · subst hnil
      have htr : truthy (jsonGetD data "aud" .null) = false := by
        simp [haudv, truthy]
      have hpol : policyChecks (rstripSlash cfg.server_url) cfg.MCP_SCOPE data =
          .error .missingAudience := by
        simp [policyChecks, h_active, htr]
      constructor
      · intro hc; exact absurd hpol hc.1
      · rintro ⟨s, hmem, -⟩; exact absurd hmem (List.not_mem_nil s)
    · have htr : truthy (jsonGetD data "aud" .null) = true := by
        simp [haudv, truthy, hnil]
      have hst : audStage (rstripSlash cfg.server_url) (jsonGetD data "aud" .null) =
          .ok (ss.any fun s => rstripSlash s == rstripSlash cfg.server_url) := by
        rw [haudv]
        simp [audStage, pyIterAudiences, pyAnyAudMatch_map]
      rw [policyChecks_aud_verdict _ _ _ _ h_active htr hst]
      simp [List.any_eq_true]
  · intro h
    have htr : truthy (jsonGetD data "aud" .null) = false := by
      simp [jsonGetD, h, truthy]
    simp [policyChecks, h_active, htr]
  · exact fun r hr => validate_token_policy_error cfg token data r hr
  · exact fun v r hr => verify_token_policy_error v token data r hr

/-- Witness for C4: the scenario response's single-string audience matches
the scenario service URL. -/
theorem audience_check_witness :
    (policyChecks (rstripSlash cfgScenario.server_url) cfgScenario.MCP_SCOPE
        dataScenario ≠ .error .missingAudience ∧
      policyChecks (rstripSlash cfgScenario.server_url) cfgScenario.MCP_SCOPE
        dataScenario ≠ .error .audienceMismatch) ↔
      rstripSlash "http://svc:3000" = rstripSlash cfgScenario.server_url :=
  (audience_check cfgScenario "tok" dataScenario rfl).1 "http://svc:3000" rfl

/-- C5: past the active and audience checks, the policy splits the `scope`
string on whitespace and accepts iff the required scope is among the
tokens; an absent scope string rejects with the missing-scope branch; and
concretely "mcp:tools extra:scope" satisfies a requirement of "mcp:tools"
while "extra:scope" alone does not. -/
theorem scope_check (su rs : String) (data : JsonObj)
    (h_active : truthy (jsonGetD data "active" (.bool false)) = true)
    (h_aud_truthy : truthy (jsonGetD data "aud" .null) = true)
    (h_aud : audStage su (jsonGetD data "aud" .null) = .ok true) :
    (∀ s : String, jsonGetD data "scope" (.str "") = .str s →
      policyChecks su rs data =
        if rs ∈ pySplitWs s then .ok (pySplitWs s) else .error .missingScope) ∧
    (jsonGet data "scope" = none → policyChecks su rs data = .error .missingScope) ∧
    ("mcp:tools" ∈ pySplitWs "mcp:tools extra:scope" ∧
     "mcp:tools" ∉ pySplitWs "extra:scope" ∧
     pySplitWs "" = []) := by
  refine ⟨?_, ?_, by decide, by decide, by decide⟩
  · intro s hsv
    have hsc : scopesStage (jsonGetD data "scope" (.str "")) = .ok (pySplitWs s) := by
      rw [hsv]; exact scopesStage_str s
    by_cases hmem : rs ∈ pySplitWs s <;>
      simp [policyChecks, h_active, h_aud_truthy, h_aud, hsc, hmem]
  · intro h
    have hsc : scopesStage (jsonGetD data "scope" (.str "")) = .ok [] := by
      simp [jsonGetD, h, scopesStage, truthy]
    simp [policyChecks, h_active, h_aud_truthy, h_aud, hsc]

/-- Witness for C5: the scenario scope string "mcp:tools read" against the
requirement "mcp:tools". -/
theorem scope_check_witness :
    policyChecks "http://svc:3000" "mcp:tools" dataScenario =
      if "mcp:tools" ∈ pySplitWs "mcp:tools read" then .ok (pySplitWs "mcp:tools read")
      else .error .missingScope :=
  (scope_check "http://svc:3000" "mcp:tools" dataScenario rfl rfl rfl).1
    "mcp:tools read" rfl

/-- An accepted `validate_token` call must have gone through a 200 response
with a decodable body whose policy checks all passed. -/
theorem validate_token_some_inv (cfg : Config) (token : String)
    (outcome : HttpOutcome) (t : AccessToken)
    (h : validate_token cfg token outcome = some t) :
    ∃ data, outcome = .response 200 (some data) ∧
      policyChecks (rstripSlash cfg.server_url) cfg.MCP_SCOPE data = .ok t.scopes := by
  unfold validate_token at h
  by_cases hep : endpointAllowed cfg.introspection_endpoint = false
  · simp [hep] at h
  · rw [if_neg hep] at h
    cases outcome with
    | timeout => simp [validate_token_try] at h
    | connectionRefused => simp [validate_token_try] at h
    | response status body =>
      by_cases hst : status = 200
      · subst hst
        cases body with
        | none => simp [validate_token_try] at h
        | some data =>
          refine ⟨data, rfl, ?_⟩
          rcases hpc : policyChecks (rstripSlash cfg.server_url) cfg.MCP_SCOPE data
            with r | scopes
          · cases r <;> simp [validate_token_try, hpc] at h
          · simp [validate_token_try, hpc] at h
            rw [← h]
      · simp [validate_token_try, hst] at h

/-- An accepted `verify_token` call must have gone through a 200 response
with a decodable body whose policy checks all passed. -/
theorem verify_token_some_inv (v : IntrospectionTokenVerifier) (token : String)
    (outcome : HttpOutcome) (t : McpAccessToken)
    (h : v.verify_token token outcome = some t) :
    ∃ data, outcome = .response 200 (some data) ∧
      policyChecks v.server_url v.required_scope data = .ok t.scopes := by
  unfold IntrospectionTokenVerifier.verify_token at h
  by_cases hep : endpointAllowed v.introspection_endpoint = false
  · simp [hep] at h
  · rw [if_neg hep] at h
    cases outcome with
    | timeout => simp [verify_token_try] at h
    | connectionRefused => simp [verify_token_try] at h
    | response status body =>
      by_cases hst : status = 200
      · subst hst
        cases body with
        | none => simp [verify_token_try] at h
        | some data =>
          refine ⟨data, rfl, ?_⟩
          rcases hpc : policyChecks v.server_url v.required_scope data with r | scopes
          · cases r <;> simp [verify_token_try, hpc] at h
          · simp [verify_token_try, hpc] at h
            rw [← h]
      · simp [verify_token_try, hst] at h

/-- C1: neither entry point lets an exception escape - any raise inside the
`try` body (timeout, connection refusal, malformed JSON, or a type error in
the field handling) yields `none`; a non-200 status yields `none`; and a
`some` result can only arise from a 200 response whose policy checks all
passed. -/
theorem validation_never_raises :
    (∀ (cfg : Config) (token : String) (outcome : HttpOutcome) (e : String),
      validate_token_try cfg token outcome = .error e →
      validate_token cfg token outcome = none) ∧
    (∀ (v : IntrospectionTokenVerifier) (token : String) (outcome : HttpOutcome)
        (e : String),
      verify_token_try v token outcome = .error e →
      v.verify_token token outcome = none) ∧
    (∀ (cfg : Config) (token : String),
      validate_token cfg token .timeout = none ∧
      validate_token cfg token .connectionRefused = none ∧
      validate_token cfg token (.response 200 none) = none) ∧
    (∀ (cfg : Config) (token : String) (status : Nat) (body : Option JsonObj),
      status ≠ 200 → validate_token cfg token (.response status body) = none) ∧
    (∀ (v : IntrospectionTokenVerifier) (token : String),
      v.verify_token token .timeout = none ∧
      v.verify_token token .connectionRefused = none ∧
      v.verify_token token (.response 200 none) = none) ∧
    (∀ (v : IntrospectionTokenVerifier) (token : String) (status : Nat)
        (body : Option JsonObj),
      status ≠ 200 → v.verify_token token (.response status body) = none) ∧
    (∀ (cfg : Config) (token : String) (outcome : HttpOutcome) (t : AccessToken),
      validate_token cfg token outcome = some t →
      ∃ data, outcome = .response 200 (some data) ∧
        policyChecks (rstripSlash cfg.server_url) cfg.MCP_SCOPE data = .ok t.scopes) ∧
    (∀ (v : IntrospectionTokenVerifier) (token : String) (outcome : HttpOutcome)
        (t : McpAccessToken),
      v.verify_token token outcome = some t →
      ∃ data, outcome = .response 200 (some data) ∧
        policyChecks v.server_url v.required_scope data = .ok t.scopes) := by
  refine ⟨?_, ?_, ?_, ?_, ?_, ?_,
    validate_token_some_inv, verify_token_some_inv⟩
  · intro cfg token outcome e h
    unfold validate_token
    rw [h]
    simp
  · intro v token outcome e h
    unfold IntrospectionTokenVerifier.verify_token
    rw [h]
    simp
  · intro cfg token
    refine ⟨?_, ?_, ?_⟩ <;> simp [validate_token, validate_token_try]
  · intro cfg token status body h
    simp [validate_token, validate_token_try, h]
  · intro v token
    refine ⟨?_, ?_, ?_⟩ <;>
      simp [IntrospectionTokenVerifier.verify_token, verify_token_try]
  · intro v token status body h
    simp [IntrospectionTokenVerifier.verify_token, verify_token_try, h]

/-- Witness for C1: each rejection class at concrete inputs, and the
acceptance inversion on the success scenario. -/
theorem validation_never_raises_witness :
    validate_token cfgScenario "tok" .timeout = none ∧
    verScenario.verify_token "tok" .timeout = none ∧
    validate_token cfgScenario "tok" (.response 500 (some dataScenario)) = none ∧
    verScenario.verify_token "tok" (.response 500 (some dataScenario)) = none ∧
    validate_token cfgScenario "tok" (.response 200 none) = none ∧
    verScenario.verify_token "tok" (.response 200 none) = none ∧
    (∃ data, HttpOutcome.response 200 (some dataScenario) =
        HttpOutcome.response 200 (some data) ∧
      policyChecks (rstripSlash cfgScenario.server_url) cfgScenario.MCP_SCOPE data =
        .ok tokScenario.scopes) :=
  ⟨validation_never_raises.1 cfgScenario "tok" .timeout "httpx.ReadTimeout" rfl,
   validation_never_raises.2.1 verScenario "tok" .timeout "httpx.ReadTimeout" rfl,
   validation_never_raises.2.2.2.1 cfgScenario "tok" 500 (some dataScenario)
     (by decide),
   validation_never_raises.2.2.2.2.2.1 verScenario "tok" 500 (some dataScenario)
     (by decide),
   (validation_never_raises.2.2.1 cfgScenario "tok").2.2,
   (validation_never_raises.2.2.2.2.1 verScenario "tok").2.2,
   validation_never_raises.2.2.2.2.2.2.1 cfgScenario "tok" _ tokScenario rfl⟩
